import Mathlib

/-!
Verification development for the SDN-WISE agent
(`contiki-workspace/sdn-wise-agent.c`).

The C module keeps a fixed-capacity flow table of forwarding rules plus four
32-bit statistics counters, processes incoming wire packets in
`process_wise_packet`, and builds periodic report packets in
`send_report_to_controller`.  We embed that state machine shallowly:

* byte buffers are `List Nat` whose entries are < 256 (the `Bytes` predicate);
* `uint8_t`/`uint16_t`/`uint32_t` values are `Nat`, with an explicit
  `% 2^16` at the points where C performs an int-to-`uint16_t` conversion
  and `% 2^32` where a `uint32_t` counter is incremented;
* the void C dispatcher is given an explicit `Decision` result naming the
  branch it took (the spec's `dispatch` output alphabet);
* `send_report_to_controller`'s environment (the role query, the two node
  address bytes, and the contents of the uninitialized 32-byte stack buffer
  it writes into) are passed as explicit parameters.
-/

/-- `#define MAX_FLOW_RULES 10` -/
def MAX_FLOW_RULES : Nat := 10

/-- `#define WISE_TYPE_DATA 0x01` -/
def WISE_TYPE_DATA : Nat := 0x01

/-- `#define WISE_TYPE_BEACON 0x02` -/
def WISE_TYPE_BEACON : Nat := 0x02

/-- `#define WISE_TYPE_REPORT 0x03` -/
def WISE_TYPE_REPORT : Nat := 0x03

/-- `#define WISE_TYPE_CONFIG 0x10` -/
def WISE_TYPE_CONFIG : Nat := 0x10

/-- `#define WISE_TYPE_FLOW_RULE 0x12` -/
def WISE_TYPE_FLOW_RULE : Nat := 0x12

/-- `2 ^ 32`, the wrap-around modulus of the `uint32_t` counters. -/
def U32 : Nat := 4294967296

/-- `2 ^ 16`, the wrap-around modulus of `uint16_t` values. -/
def U16 : Nat := 65536

/-- `flow_rule_t`: one entry of the flow table.  All fields are kept as `Nat`
(`active`, `action` are `uint8_t`, the addresses and `next_hop` are
`uint16_t`, `packet_count` is `uint32_t`). -/
structure FlowRule where
  active : Nat
  src_addr : Nat
  dst_addr : Nat
  action : Nat
  next_hop : Nat
  packet_count : Nat
deriving Repr, DecidableEq

/-- The all-zero `flow_rule_t`, the value `memset(..., 0, ...)` produces. -/
def zeroRule : FlowRule :=
  { active := 0, src_addr := 0, dst_addr := 0, action := 0, next_hop := 0,
    packet_count := 0 }

/-- The `stats` struct: four `uint32_t` counters. -/
structure Stats where
  packets_sent : Nat
  packets_received : Nat
  packets_forwarded : Nat
  packets_dropped : Nat
deriving Repr, DecidableEq

/-- The agent's mutable globals: `flow_table`, `flow_count` and `stats`.
The C array `flow_table[MAX_FLOW_RULES]` always has exactly
`MAX_FLOW_RULES` slots, recorded here as a `List` of that length. -/
structure AgentState where
  flow_table : List FlowRule
  flow_count : Nat
  stats : Stats
deriving Repr, DecidableEq

/-- The process-start state: `memset(&stats, 0, ...)` plus
`flow_table_clear()` give an all-zero table and zero counters. -/
def initState : AgentState :=
  { flow_table := List.replicate MAX_FLOW_RULES zeroRule,
    flow_count := 0,
    stats := { packets_sent := 0, packets_received := 0,
               packets_forwarded := 0, packets_dropped := 0 } }

/-- `flow_table_clear`: `memset(flow_table, 0, sizeof(flow_table))` and
`flow_count = 0`. -/
def flow_table_clear (st : AgentState) : AgentState :=
  { st with flow_table := List.replicate MAX_FLOW_RULES zeroRule,
            flow_count := 0 }

/-- `flow_table_add`: refuse with `-1` when `flow_count >= MAX_FLOW_RULES`,
otherwise write a fresh active rule into slot `flow_count` (hit counter 0)
and increment `flow_count`, returning `0`. -/
def flow_table_add (st : AgentState) (src dst action next_hop : Nat) :
    Int × AgentState :=
  if MAX_FLOW_RULES ≤ st.flow_count then
    (-1, st)
  else
    (0, { st with
      flow_table := st.flow_table.set st.flow_count
        { active := 1, src_addr := src, dst_addr := dst, action := action,
          next_hop := next_hop, packet_count := 0 },
      flow_count := st.flow_count + 1 })

/-- The loop condition of `flow_table_lookup`:
`flow_table[i].active && flow_table[i].src_addr == src &&
flow_table[i].dst_addr == dst`. -/
def ruleMatches (r : FlowRule) (src dst : Nat) : Bool :=
  r.active != 0 && r.src_addr == src && r.dst_addr == dst

/-- The scan of `flow_table_lookup`: walk at most `count` leading rules of
the list and return the loop index `i` of the first match.  (In the C code
`count = flow_count ≤ MAX_FLOW_RULES` never exceeds the array length.) -/
def flow_table_lookup_aux (src dst : Nat) :
    List FlowRule → Nat → Option Nat
  | _, 0 => none
  | [], _ + 1 => none
  | r :: rs, count + 1 =>
    if ruleMatches r src dst then some 0
    else (flow_table_lookup_aux src dst rs count).map (· + 1)

/-- `flow_table_lookup`: index of the first active rule with matching
source and destination, scanning slots `0 .. flow_count-1` in order;
`none` when no rule matches (the C function returns `NULL`). -/
def flow_table_lookup (st : AgentState) (src dst : Nat) : Option Nat :=
  flow_table_lookup_aux src dst st.flow_table st.flow_count

/-- Number of active rules stored in the table (all slots). -/
def activeCount (st : AgentState) : Nat :=
  st.flow_table.countP (fun r => r.active != 0)

/-- `dst_addr = (data[2] << 8) | data[3]` with the C conversion of the
`int` result to `uint16_t`. -/
def wise_dst_addr (data : List Nat) : Nat :=
  ((data.getD 2 0) <<< 8 ||| data.getD 3 0) % U16

/-- `src_addr = (data[4] << 8) | data[5]` with the C conversion of the
`int` result to `uint16_t`. -/
def wise_src_addr (data : List Nat) : Nat :=
  ((data.getD 4 0) <<< 8 ||| data.getD 5 0) % U16

/-- The outcome of one `process_wise_packet` invocation, naming the branch
of the `switch` that ran (the C function itself returns `void`; this is the
spec's `dispatch` decision).  `RuleInstalled` carries the result code of the
`flow_table_add` call; `RuleIgnored` is the `FLOW_RULE` case with
`len < 14`, which skips the payload; `Ignored` carries the unknown tag. -/
inductive Decision where
  | Malformed : Decision
  | RuleInstalled : Int → Decision
  | RuleIgnored : Decision
  | Forwarded : Nat → Decision
  | Dropped : Decision
  | ConfigurationNoted : Decision
  | Ignored : Nat → Decision
deriving Repr, DecidableEq

/-- The `switch (packet_type)` of `process_wise_packet`, run after
`stats.packets_received++`.  `FLOW_RULE`: when `len >= 14`, read
`action = data[7]` and `next_hop = (data[8] << 8) | data[9]` and call
`flow_table_add`.  `DATA`: look the key up; on a hit bump the rule's
`packet_count` and `packets_forwarded`; on a miss bump `packets_dropped`.
`CONFIG` and unknown tags only log. -/
def wise_dispatch_typed (packet_type src_addr dst_addr : Nat)
    (data : List Nat) (st : AgentState) : Decision × AgentState :=
  if packet_type = WISE_TYPE_FLOW_RULE then
    if 14 ≤ data.length then
      let action := data.getD 7 0
      let next_hop := ((data.getD 8 0) <<< 8 ||| data.getD 9 0) % U16
      let res := flow_table_add st src_addr dst_addr action next_hop
      (Decision.RuleInstalled res.1, res.2)
    else
      (Decision.RuleIgnored, st)
  else if packet_type = WISE_TYPE_DATA then
    match flow_table_lookup st src_addr dst_addr with
    | some i =>
      let rule := st.flow_table.getD i zeroRule
      (Decision.Forwarded rule.next_hop,
        { st with
          flow_table := st.flow_table.set i
            { rule with packet_count := (rule.packet_count + 1) % U32 },
          stats := { st.stats with
            packets_forwarded := (st.stats.packets_forwarded + 1) % U32 } })
    | none =>
      (Decision.Dropped,
        { st with stats := { st.stats with
            packets_dropped := (st.stats.packets_dropped + 1) % U32 } })
  else if packet_type = WISE_TYPE_CONFIG then
    (Decision.ConfigurationNoted, st)
  else
    (Decision.Ignored packet_type, st)

/-- `process_wise_packet`: reject buffers shorter than 7 bytes before
touching anything else; otherwise read the header fields
(`packet_type = data[1]`, big-endian `dst_addr`/`src_addr`; `data[0]` and
the ttl `data[6]` are read but unused), increment `packets_received`, and
branch on the type. -/
def process_wise_packet (data : List Nat) (st : AgentState) :
    Decision × AgentState :=
  if data.length < 7 then
    (Decision.Malformed, st)
  else
    wise_dispatch_typed (data.getD 1 0) (wise_src_addr data)
      (wise_dst_addr data) data
      { st with stats := { st.stats with
          packets_received := (st.stats.packets_received + 1) % U32 } }

/-- `send_report_to_controller`.  Parameters supplied by the environment:
`node_is_root` (the `NETSTACK_ROUTING.node_is_root()` role query), the two
link-address bytes `u8[6]`/`u8[7]`, and `stackBuffer`, the prior contents of
the local `uint8_t buffer[32]` (the C code never initializes it; only
offsets 0-3 and 7-10 are written).  A root returns immediately; otherwise
the 20 bytes handed to `simple_udp_sendto` are returned and
`packets_sent` is incremented afterwards. -/
def send_report_to_controller (node_is_root : Bool) (addr_b6 addr_b7 : Nat)
    (stackBuffer : List Nat) (st : AgentState) :
    Option (List Nat) × AgentState :=
  if node_is_root then
    (none, st)
  else
    let node_id := ((addr_b6 <<< 8) ||| addr_b7) % U16
    let s := st.stats.packets_sent
    let b0 := stackBuffer.set 0 20
    let b1 := b0.set 1 WISE_TYPE_REPORT
    let b2 := b1.set 2 ((node_id >>> 8) &&& 0xFF)
    let b3 := b2.set 3 (node_id &&& 0xFF)
    let b7 := b3.set 7 ((s >>> 24) &&& 0xFF)
    let b8 := b7.set 8 ((s >>> 16) &&& 0xFF)
    let b9 := b8.set 9 ((s >>> 8) &&& 0xFF)
    let buf := b9.set 10 (s &&& 0xFF)
    (some (buf.take 20),
      { st with stats := { st.stats with
          packets_sent := (st.stats.packets_sent + 1) % U32 } })

/-- A `List Nat` that stands for a C byte buffer: every entry fits in
`uint8_t`. -/
def Bytes (data : List Nat) : Prop := ∀ b ∈ data, b < 256

instance : DecidablePred Bytes := fun data =>
  inferInstanceAs (Decidable (∀ b ∈ data, b < 256))

/-- A 7-byte `DATA` packet for a given 16-bit key (a test vector: header
only, ttl as given). -/
def dataPacket (src dst ttl : Nat) : List Nat :=
  [7, WISE_TYPE_DATA, dst / 256, dst % 256, src / 256, src % 256, ttl]

/-- One `DATA` dispatch for the key `(src, dst)`. -/
def stepData (src dst : Nat) (st : AgentState) : AgentState :=
  (process_wise_packet (dataPacket src dst 0) st).2

/-- `n` successive `DATA` dispatches for the key `(src, dst)`. -/
def stepDataN (src dst : Nat) : Nat → AgentState → AgentState
  | 0, st => st
  | n + 1, st => stepData src dst (stepDataN src dst n st)

/-- Run `flow_table_add` for each request in the list (left to right),
collecting the C result codes and the final state. -/
def addAllResults : AgentState → List (Nat × Nat × Nat × Nat) →
    List Int × AgentState
  | st, [] => ([], st)
  | st, (src, dst, act, nh) :: rs =>
    let p := flow_table_add st src dst act nh
    let q := addAllResults p.2 rs
    (p.1 :: q.1, q.2)

/-! ## Arithmetic and list helpers -/

/-- Big-endian byte combination: for a low byte `b`, the C expression
`(a << 8) | b` equals `a * 256 + b`. -/
theorem shiftLeft_or_eq_add (a b : Nat) (hb : b < 256) :
    (a <<< 8) ||| b = a * 256 + b := by
  have hb8 : b < 2 ^ 8 := by norm_num; omega
  have h := Nat.mul_add_lt_is_or hb8 a
  rw [Nat.shiftLeft_eq, Nat.mul_comm a (2 ^ 8), ← h]

/-- The `uint16_t` conversion is the identity on a two-byte combination. -/
theorem byte_pair_mod (a b : Nat) (ha : a < 256) (hb : b < 256) :
    ((a <<< 8) ||| b) % U16 = a * 256 + b := by
  rw [shiftLeft_or_eq_add a b hb, U16]; omega

theorem and_255_eq_mod (x : Nat) : x &&& 255 = x % 256 := by
  have h := Nat.and_pow_two_sub_one_eq_mod x 8
  norm_num at h
  exact h

theorem shiftRight_byte (x k : Nat) : x >>> k = x / 2 ^ k :=
  Nat.shiftRight_eq_div_pow x k

theorem getD_set_self {α : Type} (l : List α) (i : Nat) (v d : α)
    (h : i < l.length) : (l.set i v).getD i d = v := by
  induction l generalizing i with
  | nil => simp at h
  | cons x xs ih =>
    cases i with
    | zero => simp
    | succ j => simp only [List.set, List.getD_cons_succ]; exact ih j (by simpa using h)

theorem getD_set_ne {α : Type} (l : List α) (i j : Nat) (v d : α)
    (h : i ≠ j) : (l.set i v).getD j d = l.getD j d := by
  induction l generalizing i j with
  | nil => simp [List.set]
  | cons x xs ih =>
    cases i with
    | zero =>
      cases j with
      | zero => exact absurd rfl h
      | succ j2 => simp
    | succ i2 =>
      cases j with
      | zero => simp
      | succ j2 =>
        simp only [List.set, List.getD_cons_succ]
        exact ih i2 j2 (by omega)

theorem getD_replicate {α : Type} (n j : Nat) (a : α) :
    (List.replicate n a).getD j a = a := by
  induction n generalizing j with
  | zero => simp [List.getD]
  | succ m ih =>
    cases j with
    | zero => simp [List.replicate]
    | succ j2 => simp only [List.replicate, List.getD_cons_succ]; exact ih j2

/-! ## Characterizing the lookup scan -/

/-- The scan returns `some i` exactly when slot `i` is within the scanned
range and is the lowest matching slot. -/
theorem lookup_aux_eq_some_iff (src dst : Nat) :
    ∀ (rules : List FlowRule) (count i : Nat),
      flow_table_lookup_aux src dst rules count = some i ↔
        (i < count ∧ i < rules.length ∧
         ruleMatches (rules.getD i zeroRule) src dst = true ∧
         ∀ j, j < i → ruleMatches (rules.getD j zeroRule) src dst = false) := by
  intro rules
  induction rules with
  | nil =>
    intro count i
    cases count <;> simp [flow_table_lookup_aux]
  | cons r rs ih =>
    intro count i
    cases count with
    | zero => simp [flow_table_lookup_aux]
    | succ c =>
      by_cases hm : ruleMatches r src dst = true
      · simp only [flow_table_lookup_aux, hm, if_true]
        constructor
        · intro h
          have hi : i = 0 := by
            have := Option.some.inj h
            omega
          subst hi
          refine ⟨by omega, by simp, by simpa using hm, by omega⟩
        · intro ⟨h1, h2, h3, h4⟩
          cases i with
          | zero => rfl
          | succ k =>
            have := h4 0 (by omega)
            simp at this
            rw [this] at hm
            simp at hm
      · have hm2 : ruleMatches r src dst = false := by
          cases h : ruleMatches r src dst
          · rfl
          · exact absurd h hm
        have hstep : flow_table_lookup_aux src dst (r :: rs) (c + 1) =
            (flow_table_lookup_aux src dst rs c).map (· + 1) := by
          simp [flow_table_lookup_aux, hm2]
        rw [hstep]
        constructor
        · intro h
          rw [Option.map_eq_some'] at h
          obtain ⟨k, hk, hki⟩ := h
          subst hki
          obtain ⟨h1, h2, h3, h4⟩ := (ih c k).mp hk
          refine ⟨by omega, by simpa using h2, by simpa using h3, ?_⟩
          intro j hj
          cases j with
          | zero => simpa using hm2
          | succ j2 => simpa using h4 j2 (by omega)
        · intro ⟨h1, h2, h3, h4⟩
          cases i with
          | zero =>
            simp at h3
            rw [h3] at hm2
            simp at hm2
          | succ k =>
            rw [Option.map_eq_some']
            refine ⟨k, ?_, by omega⟩
            apply (ih c k).mpr
            refine ⟨by omega, by simpa using h2, by simpa using h3, ?_⟩
            intro j hj
            simpa using h4 (j + 1) (by omega)

/-- The scan returns `none` exactly when no scanned slot matches. -/
theorem lookup_aux_eq_none_iff (src dst : Nat) :
    ∀ (rules : List FlowRule) (count : Nat),
      flow_table_lookup_aux src dst rules count = none ↔
        ∀ j, j < count → j < rules.length →
          ruleMatches (rules.getD j zeroRule) src dst = false := by
  intro rules
  induction rules with
  | nil =>
    intro count
    cases count <;> simp [flow_table_lookup_aux]
  | cons r rs ih =>
    intro count
    cases count with
    | zero => simp [flow_table_lookup_aux]
    | succ c =>
      by_cases hm : ruleMatches r src dst = true
      · simp only [flow_table_lookup_aux, hm, if_true]
        constructor
        · intro h; cases h
        · intro h
          have := h 0 (by omega) (by simp)
          simp at this
          rw [this] at hm
          simp at hm
      · have hm2 : ruleMatches r src dst = false := by
          cases h : ruleMatches r src dst
          · rfl
          · exact absurd h hm
        have hstep : flow_table_lookup_aux src dst (r :: rs) (c + 1) =
            (flow_table_lookup_aux src dst rs c).map (· + 1) := by
          simp [flow_table_lookup_aux, hm2]
        rw [hstep, Option.map_eq_none', ih c]
        constructor
        · intro h j hj hjl
          cases j with
          | zero => simpa using hm2
          | succ j2 => simpa using h j2 (by omega) (by simpa using hjl)
        · intro h j hj hjl
          simpa using h (j + 1) (by omega) (by simpa using hjl)

/-- The scan only depends on which slots match. -/
theorem lookup_aux_congr (src dst : Nat) :
    ∀ (rules rules2 : List FlowRule) (count : Nat),
      rules2.length = rules.length →
      (∀ j, ruleMatches (rules2.getD j zeroRule) src dst =
            ruleMatches (rules.getD j zeroRule) src dst) →
      flow_table_lookup_aux src dst rules2 count =
        flow_table_lookup_aux src dst rules count := by
  intro rules
  induction rules with
  | nil =>
    intro rules2 count hlen hpt
    have h2 : rules2 = [] := List.length_eq_zero.mp (by simpa using hlen)
    subst h2
    rfl
  | cons r rs ih =>
    intro rules2 count hlen hpt
    cases rules2 with
    | nil => simp at hlen
    | cons q qs =>
      cases count with
      | zero => rfl
      | succ c =>
        have hq : ruleMatches q src dst = ruleMatches r src dst := by
          simpa using hpt 0
        have hqs := ih qs c (by simpa using hlen)
          (fun j => by simpa using hpt (j + 1))
        simp only [flow_table_lookup_aux, hq, hqs]

/-- A successful `flow_table_add` on a table with no matching rule makes
the new slot (`flow_count`) the lookup result for its key. -/
theorem lookup_after_add (st : AgentState) (src dst act nh : Nat)
    (hlen : st.flow_count < st.flow_table.length)
    (hc : st.flow_count < MAX_FLOW_RULES)
    (hmiss : flow_table_lookup st src dst = none) :
    flow_table_lookup (flow_table_add st src dst act nh).2 src dst =
      some st.flow_count := by
  have hadd : (flow_table_add st src dst act nh).2 =
      { st with
        flow_table := st.flow_table.set st.flow_count
          { active := 1, src_addr := src, dst_addr := dst, action := act,
            next_hop := nh, packet_count := 0 },
        flow_count := st.flow_count + 1 } := by
    unfold flow_table_add
    rw [if_neg (by omega)]
  rw [hadd]
  show flow_table_lookup_aux src dst
      (st.flow_table.set st.flow_count
        { active := 1, src_addr := src, dst_addr := dst, action := act,
          next_hop := nh, packet_count := 0 }) (st.flow_count + 1) =
    some st.flow_count
  apply (lookup_aux_eq_some_iff src dst _ _ _).mpr
  have hnone := (lookup_aux_eq_none_iff src dst st.flow_table st.flow_count).mp hmiss
  refine ⟨by omega, by simp only [List.length_set]; exact hlen, ?_, ?_⟩
  · rw [getD_set_self _ _ _ _ hlen]
    simp [ruleMatches]
  · intro j hj
    rw [getD_set_ne _ _ _ _ _ (by omega)]
    exact hnone j hj (by omega)

/-- Decoding the `dataPacket` test vector recovers its key and type. -/
theorem dataPacket_decode (src dst ttl : Nat) (hs : src < U16) (hd : dst < U16) :
    wise_src_addr (dataPacket src dst ttl) = src ∧
    wise_dst_addr (dataPacket src dst ttl) = dst ∧
    (dataPacket src dst ttl).length = 7 ∧
    (dataPacket src dst ttl).getD 1 0 = WISE_TYPE_DATA := by
  unfold U16 at hs hd
  refine ⟨?_, ?_, by simp [dataPacket], by simp [dataPacket]⟩
  · show ((src / 256) <<< 8 ||| src % 256) % U16 = src
    rw [shiftLeft_or_eq_add _ _ (by omega), U16]
    omega
  · show ((dst / 256) <<< 8 ||| dst % 256) % U16 = dst
    rw [shiftLeft_or_eq_add _ _ (by omega), U16]
    omega

/-! ## Branch lemmas for the dispatcher -/

/-- With a decodable buffer, `process_wise_packet` is the typed switch run
on the state whose `packets_received` was already incremented. -/
theorem process_eq_typed (data : List Nat) (st : AgentState)
    (h : 7 ≤ data.length) :
    process_wise_packet data st =
      wise_dispatch_typed (data.getD 1 0) (wise_src_addr data)
        (wise_dst_addr data) data
        { st with stats := { st.stats with
            packets_received := (st.stats.packets_received + 1) % U32 } } := by
  unfold process_wise_packet
  rw [if_neg (by omega)]

/-- The `DATA` case on a hit: bump the matched rule's counter and
`packets_forwarded`, and report the rule's `next_hop`. -/
theorem dispatch_data_hit (src dst : Nat) (data : List Nat) (st : AgentState)
    (i : Nat) (hlk : flow_table_lookup st src dst = some i) :
    wise_dispatch_typed WISE_TYPE_DATA src dst data st =
      (Decision.Forwarded (st.flow_table.getD i zeroRule).next_hop,
       { st with
         flow_table := st.flow_table.set i
           { st.flow_table.getD i zeroRule with
             packet_count :=
               ((st.flow_table.getD i zeroRule).packet_count + 1) % U32 },
         stats := { st.stats with
           packets_forwarded := (st.stats.packets_forwarded + 1) % U32 } }) := by
  unfold wise_dispatch_typed
  rw [if_neg (by decide), if_pos rfl, hlk]

/-- The `DATA` case on a miss: only `packets_dropped` is bumped. -/
theorem dispatch_data_miss (src dst : Nat) (data : List Nat) (st : AgentState)
    (hlk : flow_table_lookup st src dst = none) :
    wise_dispatch_typed WISE_TYPE_DATA src dst data st =
      (Decision.Dropped,
       { st with stats := { st.stats with
           packets_dropped := (st.stats.packets_dropped + 1) % U32 } }) := by
  unfold wise_dispatch_typed
  rw [if_neg (by decide), if_pos rfl, hlk]

/-- The switch never touches `packets_received`. -/
theorem dispatch_received_eq (pt s d : Nat) (data : List Nat)
    (st : AgentState) :
    (wise_dispatch_typed pt s d data st).2.stats.packets_received =
      st.stats.packets_received := by
  unfold wise_dispatch_typed flow_table_add
  repeat' split
  all_goals simp

/-- The switch never reports `Malformed`. -/
theorem dispatch_ne_malformed (pt s d : Nat) (data : List Nat)
    (st : AgentState) :
    (wise_dispatch_typed pt s d data st).1 ≠ Decision.Malformed := by
  unfold wise_dispatch_typed
  repeat' split
  all_goals simp

/-- Replacing slot `i` by a rule with the same match behaviour for
`(src, dst)` does not change the scan result. -/
theorem lookup_aux_set_same_key (src dst : Nat) (rules : List FlowRule)
    (i count : Nat) (r : FlowRule)
    (hr : ruleMatches r src dst = ruleMatches (rules.getD i zeroRule) src dst) :
    flow_table_lookup_aux src dst (rules.set i r) count =
      flow_table_lookup_aux src dst rules count := by
  apply lookup_aux_congr
  · exact List.length_set rules i r
  · intro j
    by_cases hij : i = j
    · subst hij
      by_cases hi : i < rules.length
      · rw [getD_set_self _ _ _ _ hi]
        exact hr
      · rw [List.set_eq_of_length_le (by omega)]
    · rw [getD_set_ne _ _ _ _ _ hij]

/-- One `DATA` dispatch for a key that hits slot `i`. -/
theorem stepData_hit (st : AgentState) (src dst i : Nat)
    (hs : src < U16) (hd : dst < U16)
    (hlk : flow_table_lookup st src dst = some i) :
    stepData src dst st = { st with
      flow_table := st.flow_table.set i
        { st.flow_table.getD i zeroRule with
          packet_count :=
            ((st.flow_table.getD i zeroRule).packet_count + 1) % U32 },
      stats := { st.stats with
        packets_received := (st.stats.packets_received + 1) % U32,
        packets_forwarded := (st.stats.packets_forwarded + 1) % U32 } } ∧
    (process_wise_packet (dataPacket src dst 0) st).1 =
      Decision.Forwarded (st.flow_table.getD i zeroRule).next_hop := by
  obtain ⟨h1, h2, h3, h4⟩ := dataPacket_decode src dst 0 hs hd
  have hlk2 : flow_table_lookup
      { st with stats := { st.stats with
          packets_received := (st.stats.packets_received + 1) % U32 } }
      src dst = some i := hlk
  have hproc : process_wise_packet (dataPacket src dst 0) st =
      (Decision.Forwarded (st.flow_table.getD i zeroRule).next_hop,
       { st with
         flow_table := st.flow_table.set i
           { st.flow_table.getD i zeroRule with
             packet_count :=
               ((st.flow_table.getD i zeroRule).packet_count + 1) % U32 },
         stats := { st.stats with
           packets_received := (st.stats.packets_received + 1) % U32,
           packets_forwarded := (st.stats.packets_forwarded + 1) % U32 } }) := by
    rw [process_eq_typed _ _ (by omega), h1, h2, h4,
      dispatch_data_hit src dst _ _ i hlk2]
  exact ⟨by rw [stepData, hproc], by rw [hproc]⟩

/-- Iterated `DATA` dispatches for a key that hits slot `i`: the lookup
result is stable, other slots are untouched, and slot `i` accumulates one
hit per dispatch. -/
theorem stepDataN_spec (src dst : Nat) (hs : src < U16) (hd : dst < U16) :
    ∀ (n : Nat) (st : AgentState) (i : Nat),
      flow_table_lookup st src dst = some i →
      (st.flow_table.getD i zeroRule).packet_count < U32 →
      flow_table_lookup (stepDataN src dst n st) src dst = some i ∧
      (∀ j, j ≠ i → (stepDataN src dst n st).flow_table.getD j zeroRule =
        st.flow_table.getD j zeroRule) ∧
      (stepDataN src dst n st).flow_table.getD i zeroRule =
        { st.flow_table.getD i zeroRule with
          packet_count :=
            ((st.flow_table.getD i zeroRule).packet_count + n) % U32 } ∧
      (stepDataN src dst n st).flow_count = st.flow_count ∧
      (stepDataN src dst n st).flow_table.length = st.flow_table.length := by
  intro n
  induction n with
  | zero =>
    intro st i hlk hpc
    refine ⟨hlk, fun j _ => rfl, ?_, rfl, rfl⟩
    have hmod : ((st.flow_table.getD i zeroRule).packet_count + 0) % U32 =
        (st.flow_table.getD i zeroRule).packet_count := by
      unfold U32 at hpc ⊢
      omega
    rw [hmod]
    rfl
  | succ m ih =>
    intro st i hlk hpc
    obtain ⟨ih1, ih2, ih3, ih4, ih5⟩ := ih st i hlk hpc
    have hi_lt : i < (stepDataN src dst m st).flow_table.length :=
      ((lookup_aux_eq_some_iff src dst _ _ _).mp ih1).2.1
    obtain ⟨hstep, _⟩ := stepData_hit (stepDataN src dst m st) src dst i hs hd ih1
    have hT : stepDataN src dst (m + 1) st =
        stepData src dst (stepDataN src dst m st) := rfl
    have htab : (stepDataN src dst (m + 1) st).flow_table =
        (stepDataN src dst m st).flow_table.set i
          { (stepDataN src dst m st).flow_table.getD i zeroRule with
            packet_count :=
              (((stepDataN src dst m st).flow_table.getD i zeroRule).packet_count + 1) % U32 } := by
      rw [hT, hstep]
    have hcount : (stepDataN src dst (m + 1) st).flow_count =
        (stepDataN src dst m st).flow_count := by
      rw [hT, hstep]
    refine ⟨?_, ?_, ?_, ?_, ?_⟩
    · show flow_table_lookup_aux src dst (stepDataN src dst (m + 1) st).flow_table
        (stepDataN src dst (m + 1) st).flow_count = some i
      rw [htab, hcount, lookup_aux_set_same_key _ _ _ _ _ _ (by simp [ruleMatches])]
      exact ih1
    · intro j hj
      rw [htab, getD_set_ne _ _ _ _ _ (fun h => hj h.symm)]
      exact ih2 j hj
    · rw [htab, getD_set_self _ _ _ _ hi_lt, ih3]
      have hmod : (((st.flow_table.getD i zeroRule).packet_count + m) % U32 + 1) % U32 =
          ((st.flow_table.getD i zeroRule).packet_count + (m + 1)) % U32 := by
        unfold U32
        omega
      simp only [hmod]
    · rw [hcount, ih4]
    · rw [htab, List.length_set]
      exact ih5

/-! ## Capacity accounting -/

/-- Activating a previously-inactive slot raises the active-rule count by
exactly one. -/
theorem countP_set_active (l : List FlowRule) :
    ∀ (j : Nat) (r : FlowRule), j < l.length →
      (l.getD j zeroRule).active = 0 → r.active = 1 →
      (l.set j r).countP (fun x => x.active != 0) =
        l.countP (fun x => x.active != 0) + 1 := by
  induction l with
  | nil =>
    intro j r h
    simp at h
  | cons x xs ih =>
    intro j r hj h0 hr
    cases j with
    | zero =>
      simp only [List.getD_cons_zero] at h0
      simp [List.countP_cons, h0, hr]
    | succ j2 =>
      simp only [List.getD_cons_succ] at h0
      simp only [List.set, List.countP_cons]
      rw [ih j2 r (by simpa using hj) h0 hr]
      omega

/-- Running a batch of `flow_table_add` calls from a well-formed state with
enough free slots: every call returns `0`, and `flow_count`, the active-rule
count and the empty tail all advance in lockstep. -/
theorem addAllResults_ok (reqs : List (Nat × Nat × Nat × Nat)) :
    ∀ (st : AgentState),
      st.flow_table.length = MAX_FLOW_RULES →
      st.flow_count + reqs.length ≤ MAX_FLOW_RULES →
      activeCount st = st.flow_count →
      (∀ j, st.flow_count ≤ j → (st.flow_table.getD j zeroRule).active = 0) →
      (addAllResults st reqs).1 = List.replicate reqs.length 0 ∧
      (addAllResults st reqs).2.flow_count = st.flow_count + reqs.length ∧
      activeCount (addAllResults st reqs).2 = st.flow_count + reqs.length ∧
      (addAllResults st reqs).2.flow_table.length = MAX_FLOW_RULES ∧
      (∀ j, st.flow_count + reqs.length ≤ j →
        ((addAllResults st reqs).2.flow_table.getD j zeroRule).active = 0) := by
  induction reqs with
  | nil =>
    intro st h1 h2 h3 h4
    exact ⟨rfl, by simp [addAllResults], by simp [addAllResults, h3], by simpa [addAllResults] using h1,
      by simpa [addAllResults] using h4⟩
  | cons req rs ih =>
    obtain ⟨src, dst, act, nh⟩ := req
    intro st h1 h2 h3 h4
    simp only [List.length_cons] at h2
    have hc : st.flow_count < MAX_FLOW_RULES := by omega
    have hadd : flow_table_add st src dst act nh =
        (0, { st with
          flow_table := st.flow_table.set st.flow_count
            { active := 1, src_addr := src, dst_addr := dst, action := act,
              next_hop := nh, packet_count := 0 },
          flow_count := st.flow_count + 1 }) := by
      unfold flow_table_add
      rw [if_neg (by omega)]
    have hunfold : addAllResults st ((src, dst, act, nh) :: rs) =
        ((flow_table_add st src dst act nh).1 ::
           (addAllResults (flow_table_add st src dst act nh).2 rs).1,
         (addAllResults (flow_table_add st src dst act nh).2 rs).2) := rfl
    have hcount_lt : st.flow_count < st.flow_table.length := by
      rw [h1]
      exact hc
    have c1 : ({ st with
        flow_table := st.flow_table.set st.flow_count
          { active := 1, src_addr := src, dst_addr := dst, action := act,
            next_hop := nh, packet_count := 0 },
        flow_count := st.flow_count + 1 } : AgentState).flow_table.length =
        MAX_FLOW_RULES := by
      show (st.flow_table.set st.flow_count _).length = MAX_FLOW_RULES
      rw [List.length_set]
      exact h1
    have c2 : ({ st with
        flow_table := st.flow_table.set st.flow_count
          { active := 1, src_addr := src, dst_addr := dst, action := act,
            next_hop := nh, packet_count := 0 },
        flow_count := st.flow_count + 1 } : AgentState).flow_count + rs.length ≤
        MAX_FLOW_RULES := by
      show st.flow_count + 1 + rs.length ≤ MAX_FLOW_RULES
      omega
    have c3 : activeCount { st with
        flow_table := st.flow_table.set st.flow_count
          { active := 1, src_addr := src, dst_addr := dst, action := act,
            next_hop := nh, packet_count := 0 },
        flow_count := st.flow_count + 1 } =
        ({ st with
          flow_table := st.flow_table.set st.flow_count
            { active := 1, src_addr := src, dst_addr := dst, action := act,
              next_hop := nh, packet_count := 0 },
          flow_count := st.flow_count + 1 } : AgentState).flow_count := by
      show (st.flow_table.set st.flow_count _).countP _ = st.flow_count + 1
      rw [countP_set_active st.flow_table st.flow_count _ hcount_lt
        (h4 st.flow_count (Nat.le_refl _)) rfl]
      rw [← h3]
      rfl
    have c4 : ∀ j, ({ st with
        flow_table := st.flow_table.set st.flow_count
          { active := 1, src_addr := src, dst_addr := dst, action := act,
            next_hop := nh, packet_count := 0 },
        flow_count := st.flow_count + 1 } : AgentState).flow_count ≤ j →
        (({ st with
          flow_table := st.flow_table.set st.flow_count
            { active := 1, src_addr := src, dst_addr := dst, action := act,
              next_hop := nh, packet_count := 0 },
          flow_count := st.flow_count + 1 } : AgentState).flow_table.getD j
            zeroRule).active = 0 := by
      intro j hj
      have hj2 : st.flow_count + 1 ≤ j := hj
      show ((st.flow_table.set st.flow_count _).getD j zeroRule).active = 0
      rw [getD_set_ne _ _ _ _ _ (by omega)]
      exact h4 j (by omega)
    obtain ⟨g1, g2, g3, g4, g5⟩ := ih
      { st with
        flow_table := st.flow_table.set st.flow_count
          { active := 1, src_addr := src, dst_addr := dst, action := act,
            next_hop := nh, packet_count := 0 },
        flow_count := st.flow_count + 1 } c1 c2 c3 c4
    rw [hunfold, hadd]
    refine ⟨?_, ?_, ?_, ?_, ?_⟩
    · show (0 : Int) :: _ = List.replicate (rs.length + 1) 0
      rw [List.replicate_succ]
      exact congrArg _ g1
    · rw [g2]
      show st.flow_count + 1 + rs.length = st.flow_count + (rs.length + 1)
      omega
    · rw [g3]
      show st.flow_count + 1 + rs.length = st.flow_count + (rs.length + 1)
      omega
    · exact g4
    · intro j hj
      refine g5 j ?_
      show st.flow_count + 1 + rs.length ≤ j
      have hj2 : st.flow_count + (rs.length + 1) ≤ j := hj
      omega

/-! ## Report packet helpers -/

theorem lookup_aux_zero (src dst : Nat) (rules : List FlowRule) :
    flow_table_lookup_aux src dst rules 0 = none := by
  cases rules <;> rfl

theorem getD_take {α : Type} (l : List α) :
    ∀ (n k : Nat) (d : α), k < n → (l.take n).getD k d = l.getD k d := by
  induction l with
  | nil => intro n k d h; simp
  | cons x xs ih =>
    intro n k d h
    cases n with
    | zero => omega
    | succ m =>
      cases k with
      | zero => simp
      | succ k2 =>
        simp only [List.take, List.getD_cons_succ]
        exact ih m k2 d (by omega)

theorem byte_hi8 (x : Nat) : (x >>> 8) &&& 255 = x / 256 % 256 := by
  rw [shiftRight_byte, and_255_eq_mod]
  norm_num

theorem byte_hi16 (x : Nat) : (x >>> 16) &&& 255 = x / 65536 % 256 := by
  rw [shiftRight_byte, and_255_eq_mod]
  norm_num

theorem byte_hi24 (x : Nat) : (x >>> 24) &&& 255 = x / 16777216 % 256 := by
  rw [shiftRight_byte, and_255_eq_mod]
  norm_num

/-- The non-root branch of `send_report_to_controller`: the state effect is
exactly one `packets_sent` increment. -/
theorem send_report_false_state (b6 b7 : Nat) (buf : List Nat)
    (st : AgentState) :
    (send_report_to_controller false b6 b7 buf st).2 =
      { st with stats := { st.stats with
          packets_sent := (st.stats.packets_sent + 1) % U32 } } := rfl

/-- The non-root branch of `send_report_to_controller`: the emitted bytes
are the stack buffer with offsets 0-3 and 7-10 overwritten, truncated to
20 bytes. -/
theorem send_report_false_rep (b6 b7 : Nat) (buf : List Nat)
    (st : AgentState) :
    (send_report_to_controller false b6 b7 buf st).1 =
      some ((((((((((buf.set 0 20).set 1 WISE_TYPE_REPORT).set 2
        (((((b6 <<< 8) ||| b7) % U16) >>> 8) &&& 255)).set 3
        ((((b6 <<< 8) ||| b7) % U16) &&& 255)).set 7
        ((st.stats.packets_sent >>> 24) &&& 255)).set 8
        ((st.stats.packets_sent >>> 16) &&& 255)).set 9
        ((st.stats.packets_sent >>> 8) &&& 255)).set 10
        (st.stats.packets_sent &&& 255))).take 20) := rfl

/-- Bytes of the report buffer chain: the written offsets carry their
values and `take 20` keeps them. -/
theorem report_chain_getD (buf : List Nat) (v2 v3 v7 v8 v9 v10 : Nat)
    (hbuf : buf.length = 32) :
    (((((((((buf.set 0 20).set 1 WISE_TYPE_REPORT).set 2 v2).set 3 v3).set 7 v7).set 8 v8).set 9 v9).set 10 v10).take 20).length = 20 ∧
    (((((((((buf.set 0 20).set 1 WISE_TYPE_REPORT).set 2 v2).set 3 v3).set 7 v7).set 8 v8).set 9 v9).set 10 v10).take 20).getD 2 0 = v2 ∧
    (((((((((buf.set 0 20).set 1 WISE_TYPE_REPORT).set 2 v2).set 3 v3).set 7 v7).set 8 v8).set 9 v9).set 10 v10).take 20).getD 3 0 = v3 ∧
    (((((((((buf.set 0 20).set 1 WISE_TYPE_REPORT).set 2 v2).set 3 v3).set 7 v7).set 8 v8).set 9 v9).set 10 v10).take 20).getD 7 0 = v7 ∧
    (((((((((buf.set 0 20).set 1 WISE_TYPE_REPORT).set 2 v2).set 3 v3).set 7 v7).set 8 v8).set 9 v9).set 10 v10).take 20).getD 8 0 = v8 ∧
    (((((((((buf.set 0 20).set 1 WISE_TYPE_REPORT).set 2 v2).set 3 v3).set 7 v7).set 8 v8).set 9 v9).set 10 v10).take 20).getD 9 0 = v9 ∧
    (((((((((buf.set 0 20).set 1 WISE_TYPE_REPORT).set 2 v2).set 3 v3).set 7 v7).set 8 v8).set 9 v9).set 10 v10).take 20).getD 10 0 = v10 := by
  refine ⟨?_, ?_, ?_, ?_, ?_, ?_, ?_⟩
  · simp [List.length_take, hbuf]
  · rw [getD_take _ _ _ _ (by omega)]
    rw [getD_set_ne _ 10 2 _ _ (by omega)]
    rw [getD_set_ne _ 9 2 _ _ (by omega)]
    rw [getD_set_ne _ 8 2 _ _ (by omega)]
    rw [getD_set_ne _ 7 2 _ _ (by omega)]
    rw [getD_set_ne _ 3 2 _ _ (by omega)]
    exact getD_set_self _ _ _ _ (by simp [hbuf])
  · rw [getD_take _ _ _ _ (by omega)]
    rw [getD_set_ne _ 10 3 _ _ (by omega)]
    rw [getD_set_ne _ 9 3 _ _ (by omega)]
    rw [getD_set_ne _ 8 3 _ _ (by omega)]
    rw [getD_set_ne _ 7 3 _ _ (by omega)]
    exact getD_set_self _ _ _ _ (by simp [hbuf])
  · rw [getD_take _ _ _ _ (by omega)]
    rw [getD_set_ne _ 10 7 _ _ (by omega)]
    rw [getD_set_ne _ 9 7 _ _ (by omega)]
    rw [getD_set_ne _ 8 7 _ _ (by omega)]
    exact getD_set_self _ _ _ _ (by simp [hbuf])
  · rw [getD_take _ _ _ _ (by omega)]
    rw [getD_set_ne _ 10 8 _ _ (by omega)]
    rw [getD_set_ne _ 9 8 _ _ (by omega)]
    exact getD_set_self _ _ _ _ (by simp [hbuf])
  · rw [getD_take _ _ _ _ (by omega)]
    rw [getD_set_ne _ 10 9 _ _ (by omega)]
    exact getD_set_self _ _ _ _ (by simp [hbuf])
  · rw [getD_take _ _ _ _ (by omega)]
    exact getD_set_self _ _ _ _ (by simp [hbuf])

/-- The `FLOW_RULE` case with a full payload and a non-full table installs
the decoded rule in slot `flow_count`. -/
theorem dispatch_flow_rule_ok (src dst : Nat) (data : List Nat)
    (st : AgentState) (hlen14 : 14 ≤ data.length)
    (hc : st.flow_count < MAX_FLOW_RULES) :
    wise_dispatch_typed WISE_TYPE_FLOW_RULE src dst data st =
      (Decision.RuleInstalled 0,
       { st with
         flow_table := st.flow_table.set st.flow_count
           { active := 1, src_addr := src, dst_addr := dst,
             action := data.getD 7 0,
             next_hop := ((data.getD 8 0) <<< 8 ||| data.getD 9 0) % U16,
             packet_count := 0 },
         flow_count := st.flow_count + 1 }) := by
  unfold wise_dispatch_typed
  rw [if_pos rfl, if_pos hlen14]
  unfold flow_table_add
  simp only [if_neg (show ¬ MAX_FLOW_RULES ≤ st.flow_count by omega)]

/-! ## Claim theorems -/

/-- C1: starting from the cleared table, every sequence of at most
`MAX_FLOW_RULES = 10` `flow_table_add` calls succeeds (each returns `0`)
and leaves `flow_count` and the number of active rules equal to the number
of calls; and any `flow_table_add` issued when `flow_count` (the active-rule
count, by the first part) is `10` returns `-1` (`TableFull`) with the state
— every rule byte-for-byte and the count — unchanged. -/
theorem flow_table_capacity_spec (reqs : List (Nat × Nat × Nat × Nat))
    (hn : reqs.length ≤ MAX_FLOW_RULES) :
    ((addAllResults initState reqs).1 = List.replicate reqs.length 0 ∧
     (addAllResults initState reqs).2.flow_count = reqs.length ∧
     activeCount (addAllResults initState reqs).2 = reqs.length) ∧
    (∀ (st : AgentState) (src dst act nh : Nat),
      st.flow_count = MAX_FLOW_RULES →
      flow_table_add st src dst act nh = (-1, st)) := by
  constructor
  · have h4 : ∀ j, initState.flow_count ≤ j →
        ((initState.flow_table.getD j zeroRule).active = 0) := by
      intro j hj
      show ((List.replicate MAX_FLOW_RULES zeroRule).getD j zeroRule).active = 0
      rw [getD_replicate]
      rfl
    obtain ⟨g1, g2, g3, g4, g5⟩ := addAllResults_ok reqs initState rfl
      (by show 0 + reqs.length ≤ MAX_FLOW_RULES; omega) rfl h4
    refine ⟨g1, ?_, ?_⟩
    · rw [g2]
      show 0 + reqs.length = reqs.length
      omega
    · rw [g3]
      show 0 + reqs.length = reqs.length
      omega
  · intro st src dst act nh h
    unfold flow_table_add
    rw [if_pos (by omega)]

/-- C1 witness: ten adds from the cleared table all succeed and fill the
table; the eleventh is refused with the state unchanged. -/
theorem flow_table_capacity_spec_witness :
    (List.replicate 10 ((1, 2, 3, 4) : Nat × Nat × Nat × Nat)).length ≤
      MAX_FLOW_RULES ∧
    (addAllResults initState
      (List.replicate 10 ((1, 2, 3, 4) : Nat × Nat × Nat × Nat))).2.flow_count =
      (List.replicate 10 ((1, 2, 3, 4) : Nat × Nat × Nat × Nat)).length ∧
    flow_table_add
        (addAllResults initState
          (List.replicate 10 ((1, 2, 3, 4) : Nat × Nat × Nat × Nat))).2
        5 6 7 8 =
      (-1, (addAllResults initState
        (List.replicate 10 ((1, 2, 3, 4) : Nat × Nat × Nat × Nat))).2) := by
  refine ⟨by decide, ?_, ?_⟩
  · exact (flow_table_capacity_spec
      (List.replicate 10 ((1, 2, 3, 4) : Nat × Nat × Nat × Nat))
      (by decide)).1.2.1
  · refine (flow_table_capacity_spec
      (List.replicate 10 ((1, 2, 3, 4) : Nat × Nat × Nat × Nat))
      (by decide)).2 _ 5 6 7 8 ?_
    decide

/-- C4: any buffer shorter than 7 bytes is rejected as `Malformed` with the
whole state (flow table and all four counters) unchanged and nothing else
inspected; a buffer of exactly 7 bytes is never rejected as `Malformed`. -/
theorem process_short_buffer_spec (data : List Nat) (st : AgentState) :
    (data.length < 7 →
      process_wise_packet data st = (Decision.Malformed, st)) ∧
    (data.length = 7 →
      (process_wise_packet data st).1 ≠ Decision.Malformed) := by
  constructor
  · intro h
    unfold process_wise_packet
    rw [if_pos h]
  · intro h
    rw [process_eq_typed data st (by omega)]
    apply dispatch_ne_malformed

/-- C4 witness: a 3-byte buffer is `Malformed` and leaves the initial state
unchanged; a 7-byte buffer is not `Malformed`. -/
theorem process_short_buffer_spec_witness :
    ([1, 2, 3] : List Nat).length < 7 ∧
    process_wise_packet [1, 2, 3] initState = (Decision.Malformed, initState) ∧
    (process_wise_packet [20, 3, 0, 0, 0, 0, 0] initState).1 ≠
      Decision.Malformed :=
  ⟨by decide,
   (process_short_buffer_spec [1, 2, 3] initState).1 (by decide),
   (process_short_buffer_spec [20, 3, 0, 0, 0, 0, 0] initState).2 (by decide)⟩

/-- C5: dispatching a `DATA` packet whose decoded key matches no rule
returns `Dropped` and produces exactly the state with `packets_dropped`
and `packets_received` each incremented once — flow table, every rule and
the other two counters unchanged. -/
theorem process_data_miss_spec (data : List Nat) (st : AgentState)
    (hlen : 7 ≤ data.length) (hty : data.getD 1 0 = WISE_TYPE_DATA)
    (hmiss : flow_table_lookup st (wise_src_addr data) (wise_dst_addr data) =
      none) :
    process_wise_packet data st =
      (Decision.Dropped,
       { st with stats := { st.stats with
           packets_received := (st.stats.packets_received + 1) % U32,
           packets_dropped := (st.stats.packets_dropped + 1) % U32 } }) := by
  rw [process_eq_typed data st hlen, hty]
  have hmiss2 : flow_table_lookup
      { st with stats := { st.stats with
          packets_received := (st.stats.packets_received + 1) % U32 } }
      (wise_src_addr data) (wise_dst_addr data) = none := hmiss
  rw [dispatch_data_miss _ _ _ _ hmiss2]

/-- C5 witness: a `DATA` packet on the empty table is dropped with exactly
the two counters bumped. -/
theorem process_data_miss_spec_witness :
    ([7, 1, 0, 5, 0, 9, 3] : List Nat).getD 1 0 = WISE_TYPE_DATA ∧
    process_wise_packet [7, 1, 0, 5, 0, 9, 3] initState =
      (Decision.Dropped,
       { initState with stats := { initState.stats with
           packets_received := (initState.stats.packets_received + 1) % U32,
           packets_dropped := (initState.stats.packets_dropped + 1) % U32 } }) :=
  ⟨by decide,
   process_data_miss_spec [7, 1, 0, 5, 0, 9, 3] initState (by decide)
     (by decide) (by decide)⟩

/-- C9: for every decodable buffer — whatever the type tag — the dispatcher
is the typed switch applied to the state whose `packets_received` was
already incremented (the increment happens before the branch), and the
final `packets_received` is exactly the incremented value, once. -/
theorem process_received_once_spec (data : List Nat) (st : AgentState)
    (hlen : 7 ≤ data.length) :
    process_wise_packet data st =
      wise_dispatch_typed (data.getD 1 0) (wise_src_addr data)
        (wise_dst_addr data) data
        { st with stats := { st.stats with
            packets_received := (st.stats.packets_received + 1) % U32 } } ∧
    (process_wise_packet data st).2.stats.packets_received =
      (st.stats.packets_received + 1) % U32 := by
  refine ⟨process_eq_typed data st hlen, ?_⟩
  rw [process_eq_typed data st hlen, dispatch_received_eq]

/-- C9 witness: an unknown tag (0) still counts as received exactly once. -/
theorem process_received_once_spec_witness :
    7 ≤ ([9, 0, 0, 0, 0, 0, 0] : List Nat).length ∧
    (process_wise_packet [9, 0, 0, 0, 0, 0, 0] initState).2.stats.packets_received =
      (initState.stats.packets_received + 1) % U32 :=
  ⟨by decide,
   (process_received_once_spec [9, 0, 0, 0, 0, 0, 0] initState (by decide)).2⟩

/-- C10: a `DATA` packet whose key matches slot `i` is reported as
`Forwarded` with that rule's `next_hop`, bumping `packets_forwarded` and
the rule's hit counter — and the stored `action` byte is never consulted:
overwriting the matched rule's `action` with any value `act2` (DROP,
FORWARD or ASK_CONTROLLER alike) yields the same `Forwarded(next_hop)`
outcome. -/
theorem process_data_ignores_action_spec (data : List Nat) (st : AgentState)
    (i act2 : Nat) (hlen : 7 ≤ data.length)
    (hty : data.getD 1 0 = WISE_TYPE_DATA)
    (hlk : flow_table_lookup st (wise_src_addr data) (wise_dst_addr data) =
      some i) :
    process_wise_packet data st =
      (Decision.Forwarded (st.flow_table.getD i zeroRule).next_hop,
       { st with
         flow_table := st.flow_table.set i
           { st.flow_table.getD i zeroRule with
             packet_count :=
               ((st.flow_table.getD i zeroRule).packet_count + 1) % U32 },
         stats := { st.stats with
           packets_received := (st.stats.packets_received + 1) % U32,
           packets_forwarded := (st.stats.packets_forwarded + 1) % U32 } }) ∧
    (process_wise_packet data
        { st with
          flow_table := st.flow_table.set i
            { st.flow_table.getD i zeroRule with action := act2 } }).1 =
      Decision.Forwarded (st.flow_table.getD i zeroRule).next_hop := by
  have hi_lt : i < st.flow_table.length :=
    ((lookup_aux_eq_some_iff (wise_src_addr data) (wise_dst_addr data)
      st.flow_table st.flow_count i).mp hlk).2.1
  constructor
  · rw [process_eq_typed data st hlen, hty]
    have hlk2 : flow_table_lookup
        { st with stats := { st.stats with
            packets_received := (st.stats.packets_received + 1) % U32 } }
        (wise_src_addr data) (wise_dst_addr data) = some i := hlk
    rw [dispatch_data_hit _ _ _ _ i hlk2]
  · rw [process_eq_typed _ _ hlen, hty]
    have hlk3 : flow_table_lookup
        { st with
          flow_table := st.flow_table.set i
            { st.flow_table.getD i zeroRule with action := act2 },
          stats := { st.stats with
            packets_received := (st.stats.packets_received + 1) % U32 } }
        (wise_src_addr data) (wise_dst_addr data) = some i := by
      show flow_table_lookup_aux (wise_src_addr data) (wise_dst_addr data)
        (st.flow_table.set i
          { st.flow_table.getD i zeroRule with action := act2 })
        st.flow_count = some i
      rw [lookup_aux_set_same_key _ _ _ _ _ _ (by simp [ruleMatches])]
      exact hlk
    rw [dispatch_data_hit _ _ _ _ i hlk3]
    show Decision.Forwarded
      ((st.flow_table.set i
        { st.flow_table.getD i zeroRule with action := act2 }).getD i
          zeroRule).next_hop = _
    rw [getD_set_self _ _ _ _ hi_lt]

/-- C10 witness: a rule installed with `action = 0` (DROP) still forwards:
the `DATA` packet for its key is reported `Forwarded(258)`. -/
theorem process_data_ignores_action_spec_witness :
    flow_table_lookup
        (process_wise_packet [14, 18, 0, 5, 0, 9, 3, 0, 1, 2, 0, 0, 0, 0]
          initState).2
        (wise_src_addr [7, 1, 0, 5, 0, 9, 0])
        (wise_dst_addr [7, 1, 0, 5, 0, 9, 0]) = some 0 ∧
    (process_wise_packet [7, 1, 0, 5, 0, 9, 0]
        (process_wise_packet [14, 18, 0, 5, 0, 9, 3, 0, 1, 2, 0, 0, 0, 0]
          initState).2).1 =
      Decision.Forwarded 258 := by
  refine ⟨by decide, ?_⟩
  have h := (process_data_ignores_action_spec [7, 1, 0, 5, 0, 9, 0]
    (process_wise_packet [14, 18, 0, 5, 0, 9, 3, 0, 1, 2, 0, 0, 0, 0]
      initState).2 0 2 (by decide) (by decide) (by decide)).1
  rw [h]
  decide

/-- C2: (general part) whenever `flow_table_lookup` returns slot `i`, that
slot is inside the scanned range, matches, and every lower-indexed slot
does not match — the scan is first-match in insertion order.  (Scenario
part) inserting `R1` and then `R2` with the same key into a table with no
prior match: every lookup of the key returns `R1`'s slot, and after any
number of `DATA` dispatches for the key, `R2`'s slot is still byte-for-byte
the freshly installed rule with `packet_count = 0` — `R2` is shadowed and
its hit counter never moves. -/
theorem lookup_first_match_shadowing_spec (st : AgentState)
    (src dst a1 n1 a2 n2 nsteps : Nat)
    (hwf : st.flow_table.length = MAX_FLOW_RULES)
    (hc : st.flow_count + 2 ≤ MAX_FLOW_RULES)
    (hmiss : flow_table_lookup st src dst = none)
    (hs : src < U16) (hd : dst < U16) :
    (∀ (t : AgentState) (s d i : Nat), flow_table_lookup t s d = some i →
       i < t.flow_count ∧
       ruleMatches (t.flow_table.getD i zeroRule) s d = true ∧
       ∀ j, j < i → ruleMatches (t.flow_table.getD j zeroRule) s d = false) ∧
    flow_table_lookup
        (flow_table_add (flow_table_add st src dst a1 n1).2 src dst a2 n2).2
        src dst = some st.flow_count ∧
    flow_table_lookup
        (stepDataN src dst nsteps
          (flow_table_add (flow_table_add st src dst a1 n1).2 src dst a2 n2).2)
        src dst = some st.flow_count ∧
    (stepDataN src dst nsteps
        (flow_table_add (flow_table_add st src dst a1 n1).2 src dst
          a2 n2).2).flow_table.getD (st.flow_count + 1) zeroRule =
      { active := 1, src_addr := src, dst_addr := dst, action := a2,
        next_hop := n2, packet_count := 0 } := by
  have hfirst : ∀ (t : AgentState) (s d i : Nat),
      flow_table_lookup t s d = some i →
      i < t.flow_count ∧
      ruleMatches (t.flow_table.getD i zeroRule) s d = true ∧
      ∀ j, j < i → ruleMatches (t.flow_table.getD j zeroRule) s d = false := by
    intro t s d i h
    obtain ⟨q1, q2, q3, q4⟩ := (lookup_aux_eq_some_iff s d _ _ _).mp h
    exact ⟨q1, q3, q4⟩
  have hadd1 : flow_table_add st src dst a1 n1 =
      (0, { st with
        flow_table := st.flow_table.set st.flow_count
          { active := 1, src_addr := src, dst_addr := dst, action := a1,
            next_hop := n1, packet_count := 0 },
        flow_count := st.flow_count + 1 }) := by
    unfold flow_table_add
    rw [if_neg (by omega)]
  have hadd2 : flow_table_add
      ({ st with
        flow_table := st.flow_table.set st.flow_count
          { active := 1, src_addr := src, dst_addr := dst, action := a1,
            next_hop := n1, packet_count := 0 },
        flow_count := st.flow_count + 1 } : AgentState) src dst a2 n2 =
      (0, { st with
        flow_table := (st.flow_table.set st.flow_count
          { active := 1, src_addr := src, dst_addr := dst, action := a1,
            next_hop := n1, packet_count := 0 }).set (st.flow_count + 1)
          { active := 1, src_addr := src, dst_addr := dst, action := a2,
            next_hop := n2, packet_count := 0 },
        flow_count := st.flow_count + 1 + 1 }) := by
    unfold flow_table_add
    rw [if_neg (show ¬ MAX_FLOW_RULES ≤ st.flow_count + 1 by omega)]
  have hnone := (lookup_aux_eq_none_iff src dst st.flow_table st.flow_count).mp
    hmiss
  have hlk2 : flow_table_lookup
      ({ st with
        flow_table := (st.flow_table.set st.flow_count
          { active := 1, src_addr := src, dst_addr := dst, action := a1,
            next_hop := n1, packet_count := 0 }).set (st.flow_count + 1)
          { active := 1, src_addr := src, dst_addr := dst, action := a2,
            next_hop := n2, packet_count := 0 },
        flow_count := st.flow_count + 1 + 1 } : AgentState) src dst =
      some st.flow_count := by
    apply (lookup_aux_eq_some_iff src dst _ _ _).mpr
    refine ⟨by show st.flow_count < st.flow_count + 1 + 1; omega, ?_, ?_, ?_⟩
    · show st.flow_count < ((st.flow_table.set st.flow_count _).set
        (st.flow_count + 1) _).length
      rw [List.length_set, List.length_set, hwf]
      omega
    · rw [getD_set_ne _ _ _ _ _ (by omega),
        getD_set_self _ _ _ _ (by rw [hwf]; omega)]
      simp [ruleMatches]
    · intro j hj
      rw [getD_set_ne _ _ _ _ _ (by omega), getD_set_ne _ _ _ _ _ (by omega)]
      exact hnone j hj (by rw [hwf]; omega)
  have hpc : (({ st with
      flow_table := (st.flow_table.set st.flow_count
        { active := 1, src_addr := src, dst_addr := dst, action := a1,
          next_hop := n1, packet_count := 0 }).set (st.flow_count + 1)
        { active := 1, src_addr := src, dst_addr := dst, action := a2,
          next_hop := n2, packet_count := 0 },
      flow_count := st.flow_count + 1 + 1 } : AgentState).flow_table.getD
        st.flow_count zeroRule).packet_count < U32 := by
    show (((st.flow_table.set st.flow_count _).set (st.flow_count + 1) _).getD
      st.flow_count zeroRule).packet_count < U32
    rw [getD_set_ne _ _ _ _ _ (by omega),
      getD_set_self _ _ _ _ (by rw [hwf]; omega)]
    show (0 : Nat) < U32
    decide
  obtain ⟨w1, w2, w3, w4, w5⟩ := stepDataN_spec src dst hs hd nsteps _ _ hlk2 hpc
  rw [hadd1]
  refine ⟨hfirst, ?_, ?_, ?_⟩
  · show flow_table_lookup (flow_table_add _ src dst a2 n2).2 src dst =
      some st.flow_count
    rw [hadd2]
    exact hlk2
  · show flow_table_lookup (stepDataN src dst nsteps
      (flow_table_add _ src dst a2 n2).2) src dst = some st.flow_count
    rw [hadd2]
    exact w1
  · show (stepDataN src dst nsteps
      (flow_table_add _ src dst a2 n2).2).flow_table.getD
        (st.flow_count + 1) zeroRule = _
    rw [hadd2]
    have hw := w2 (st.flow_count + 1) (by omega)
    rw [hw]
    show ((st.flow_table.set st.flow_count _).set (st.flow_count + 1) _).getD
      (st.flow_count + 1) zeroRule = _
    rw [getD_set_self _ _ _ _ (by rw [List.length_set, hwf]; omega)]

/-- C2 witness: on the cleared table, installing two rules for key
`(9, 5)` and dispatching three `DATA` packets leaves the second (shadowed)
rule untouched with `packet_count = 0`. -/
theorem lookup_first_match_shadowing_spec_witness :
    flow_table_lookup initState 9 5 = none ∧
    (stepDataN 9 5 3
        (flow_table_add (flow_table_add initState 9 5 1 100).2
          9 5 2 200).2).flow_table.getD (initState.flow_count + 1) zeroRule =
      { active := 1, src_addr := 9, dst_addr := 5, action := 2,
        next_hop := 200, packet_count := 0 } :=
  ⟨by decide,
   (lookup_first_match_shadowing_spec initState 9 5 1 100 2 200 3
     (by decide) (by decide) (by decide) (by decide) (by decide)).2.2.2⟩

/-- C3: lookup on an empty table (`flow_count = 0`) always returns nothing;
after installing rule `R` into a table with no match for its key, looking
the key up finds `R`'s slot, every one of `n` successive `DATA` dispatches
returns `Forwarded(R.next_hop)`, and after them `R`'s slot carries
`hit_count = n` (one increment per dispatch, in 32-bit arithmetic). -/
theorem lookup_empty_and_hit_count_spec (st : AgentState)
    (src dst act nh n : Nat)
    (hwf : st.flow_table.length = MAX_FLOW_RULES)
    (hc : st.flow_count < MAX_FLOW_RULES)
    (hmiss : flow_table_lookup st src dst = none)
    (hs : src < U16) (hd : dst < U16) :
    (∀ (t : AgentState) (s d : Nat), t.flow_count = 0 →
       flow_table_lookup t s d = none) ∧
    flow_table_lookup (flow_table_add st src dst act nh).2 src dst =
      some st.flow_count ∧
    (process_wise_packet (dataPacket src dst 0)
        (stepDataN src dst n (flow_table_add st src dst act nh).2)).1 =
      Decision.Forwarded nh ∧
    (stepDataN src dst n
        (flow_table_add st src dst act nh).2).flow_table.getD
        st.flow_count zeroRule =
      { active := 1, src_addr := src, dst_addr := dst, action := act,
        next_hop := nh, packet_count := n % U32 } := by
  have hempty : ∀ (t : AgentState) (s d : Nat), t.flow_count = 0 →
      flow_table_lookup t s d = none := by
    intro t s d h
    unfold flow_table_lookup
    rw [h]
    exact lookup_aux_zero s d t.flow_table
  have hlk1 : flow_table_lookup (flow_table_add st src dst act nh).2 src dst =
      some st.flow_count :=
    lookup_after_add st src dst act nh (by rw [hwf]; exact hc) hc hmiss
  have hadd : flow_table_add st src dst act nh =
      (0, { st with
        flow_table := st.flow_table.set st.flow_count
          { active := 1, src_addr := src, dst_addr := dst, action := act,
            next_hop := nh, packet_count := 0 },
        flow_count := st.flow_count + 1 }) := by
    unfold flow_table_add
    rw [if_neg (by omega)]
  have hgetc : (flow_table_add st src dst act nh).2.flow_table.getD
      st.flow_count zeroRule =
      { active := 1, src_addr := src, dst_addr := dst, action := act,
        next_hop := nh, packet_count := 0 } := by
    rw [hadd]
    show (st.flow_table.set st.flow_count _).getD st.flow_count zeroRule = _
    exact getD_set_self _ _ _ _ (by rw [hwf]; exact hc)
  have hpc : ((flow_table_add st src dst act nh).2.flow_table.getD
      st.flow_count zeroRule).packet_count < U32 := by
    rw [hgetc]
    show (0 : Nat) < U32
    decide
  obtain ⟨w1, w2, w3, w4, w5⟩ := stepDataN_spec src dst hs hd n
    (flow_table_add st src dst act nh).2 st.flow_count hlk1 hpc
  have hslot : (stepDataN src dst n
      (flow_table_add st src dst act nh).2).flow_table.getD
      st.flow_count zeroRule =
      { active := 1, src_addr := src, dst_addr := dst, action := act,
        next_hop := nh, packet_count := n % U32 } := by
    rw [w3, hgetc]
    simp
  refine ⟨hempty, hlk1, ?_, hslot⟩
  obtain ⟨_, hfwd⟩ := stepData_hit
    (stepDataN src dst n (flow_table_add st src dst act nh).2)
    src dst st.flow_count hs hd w1
  rw [hfwd, hslot]

/-- C3 witness: install one rule for key `(9, 5)` on the cleared table and
dispatch two `DATA` packets: its hit counter reads 2. -/
theorem lookup_empty_and_hit_count_spec_witness :
    flow_table_lookup initState 9 5 = none ∧
    (stepDataN 9 5 2
        (flow_table_add initState 9 5 1 258).2).flow_table.getD
        initState.flow_count zeroRule =
      { active := 1, src_addr := 9, dst_addr := 5, action := 1,
        next_hop := 258, packet_count := 2 % U32 } :=
  ⟨by decide,
   (lookup_empty_and_hit_count_spec initState 9 5 1 258 2 (by decide)
     (by decide) (by decide) (by decide) (by decide)).2.2.2⟩

/-- C6: dispatching a well-formed `FLOW_RULE` packet (length ≥ 14, action
at offset 7, big-endian next hop at offsets 8-9) on a non-full table with
no earlier rule for the key, then a `DATA` packet with the same source and
destination header bytes, returns `Forwarded` carrying exactly the encoded
next-hop value. -/
theorem flow_rule_then_data_spec (st : AgentState)
    (l1 b2 b3 b4 b5 t1 act p8 p9 x10 x11 x12 x13 l2 t2 : Nat)
    (rest rest2 : List Nat)
    (hwf : st.flow_table.length = MAX_FLOW_RULES)
    (hc : st.flow_count < MAX_FLOW_RULES)
    (hb4 : b4 < 256) (hb5 : b5 < 256) (hb2 : b2 < 256) (hb3 : b3 < 256)
    (hp8 : p8 < 256) (hp9 : p9 < 256)
    (hmiss : flow_table_lookup st (b4 * 256 + b5) (b2 * 256 + b3) = none) :
    (process_wise_packet
        (l2 :: WISE_TYPE_DATA :: b2 :: b3 :: b4 :: b5 :: t2 :: rest2)
        (process_wise_packet
          (l1 :: WISE_TYPE_FLOW_RULE :: b2 :: b3 :: b4 :: b5 :: t1 :: act ::
            p8 :: p9 :: x10 :: x11 :: x12 :: x13 :: rest) st).2).1 =
      Decision.Forwarded (p8 * 256 + p9) := by
  have hlen1 : 7 ≤ (l1 :: WISE_TYPE_FLOW_RULE :: b2 :: b3 :: b4 :: b5 :: t1 ::
      act :: p8 :: p9 :: x10 :: x11 :: x12 :: x13 :: rest).length := by
    simp only [List.length_cons]
    omega
  have hlen14 : 14 ≤ (l1 :: WISE_TYPE_FLOW_RULE :: b2 :: b3 :: b4 :: b5 ::
      t1 :: act :: p8 :: p9 :: x10 :: x11 :: x12 :: x13 :: rest).length := by
    simp only [List.length_cons]
    omega
  have hlen2 : 7 ≤ (l2 :: WISE_TYPE_DATA :: b2 :: b3 :: b4 :: b5 :: t2 ::
      rest2).length := by
    simp only [List.length_cons]
    omega
  have hty1 : (l1 :: WISE_TYPE_FLOW_RULE :: b2 :: b3 :: b4 :: b5 :: t1 ::
      act :: p8 :: p9 :: x10 :: x11 :: x12 :: x13 :: rest).getD 1 0 =
      WISE_TYPE_FLOW_RULE := rfl
  have hty2 : (l2 :: WISE_TYPE_DATA :: b2 :: b3 :: b4 :: b5 :: t2 ::
      rest2).getD 1 0 = WISE_TYPE_DATA := rfl
  have hsrc1 : wise_src_addr (l1 :: WISE_TYPE_FLOW_RULE :: b2 :: b3 :: b4 ::
      b5 :: t1 :: act :: p8 :: p9 :: x10 :: x11 :: x12 :: x13 :: rest) =
      b4 * 256 + b5 := by
    show ((b4 <<< 8) ||| b5) % U16 = b4 * 256 + b5
    exact byte_pair_mod b4 b5 hb4 hb5
  have hdst1 : wise_dst_addr (l1 :: WISE_TYPE_FLOW_RULE :: b2 :: b3 :: b4 ::
      b5 :: t1 :: act :: p8 :: p9 :: x10 :: x11 :: x12 :: x13 :: rest) =
      b2 * 256 + b3 := by
    show ((b2 <<< 8) ||| b3) % U16 = b2 * 256 + b3
    exact byte_pair_mod b2 b3 hb2 hb3
  have hsrc2 : wise_src_addr (l2 :: WISE_TYPE_DATA :: b2 :: b3 :: b4 :: b5 ::
      t2 :: rest2) = b4 * 256 + b5 := by
    show ((b4 <<< 8) ||| b5) % U16 = b4 * 256 + b5
    exact byte_pair_mod b4 b5 hb4 hb5
  have hdst2 : wise_dst_addr (l2 :: WISE_TYPE_DATA :: b2 :: b3 :: b4 :: b5 ::
      t2 :: rest2) = b2 * 256 + b3 := by
    show ((b2 <<< 8) ||| b3) % U16 = b2 * 256 + b3
    exact byte_pair_mod b2 b3 hb2 hb3
  have hstep1 : (process_wise_packet
      (l1 :: WISE_TYPE_FLOW_RULE :: b2 :: b3 :: b4 :: b5 :: t1 :: act ::
        p8 :: p9 :: x10 :: x11 :: x12 :: x13 :: rest) st).2 =
      { flow_table := st.flow_table.set st.flow_count
          { active := 1, src_addr := b4 * 256 + b5,
            dst_addr := b2 * 256 + b3, action := act,
            next_hop := ((p8 <<< 8) ||| p9) % U16, packet_count := 0 },
        flow_count := st.flow_count + 1,
        stats :=
          { packets_sent := st.stats.packets_sent,
            packets_received := (st.stats.packets_received + 1) % U32,
            packets_forwarded := st.stats.packets_forwarded,
            packets_dropped := st.stats.packets_dropped } } := by
    rw [process_eq_typed _ _ hlen1, hty1, hsrc1, hdst1]
    have hrule := dispatch_flow_rule_ok (b4 * 256 + b5) (b2 * 256 + b3)
      (l1 :: WISE_TYPE_FLOW_RULE :: b2 :: b3 :: b4 :: b5 :: t1 :: act ::
        p8 :: p9 :: x10 :: x11 :: x12 :: x13 :: rest)
      { st with stats := { st.stats with
          packets_received := (st.stats.packets_received + 1) % U32 } }
      hlen14 hc
    rw [hrule]
    rfl
  rw [hstep1, process_eq_typed _ _ hlen2, hty2, hsrc2, hdst2]
  have hnone := (lookup_aux_eq_none_iff (b4 * 256 + b5) (b2 * 256 + b3)
    st.flow_table st.flow_count).mp hmiss
  have hlkx : flow_table_lookup
      { flow_table := st.flow_table.set st.flow_count
          { active := 1, src_addr := b4 * 256 + b5,
            dst_addr := b2 * 256 + b3, action := act,
            next_hop := ((p8 <<< 8) ||| p9) % U16, packet_count := 0 },
        flow_count := st.flow_count + 1,
        stats :=
          { packets_sent := st.stats.packets_sent,
            packets_received :=
              ((st.stats.packets_received + 1) % U32 + 1) % U32,
            packets_forwarded := st.stats.packets_forwarded,
            packets_dropped := st.stats.packets_dropped } }
      (b4 * 256 + b5) (b2 * 256 + b3) = some st.flow_count := by
    apply (lookup_aux_eq_some_iff _ _ _ _ _).mpr
    refine ⟨by show st.flow_count < st.flow_count + 1; omega, ?_, ?_, ?_⟩
    · show st.flow_count < (st.flow_table.set st.flow_count _).length
      rw [List.length_set, hwf]
      omega
    · show ruleMatches ((st.flow_table.set st.flow_count _).getD
        st.flow_count zeroRule) _ _ = true
      rw [getD_set_self _ _ _ _ (by rw [hwf]; omega)]
      simp [ruleMatches]
    · intro j hj
      show ruleMatches ((st.flow_table.set st.flow_count _).getD j zeroRule)
        _ _ = false
      rw [getD_set_ne _ _ _ _ _ (by omega)]
      exact hnone j hj (by rw [hwf]; omega)
  rw [dispatch_data_hit _ _ _ _ st.flow_count hlkx]
  show Decision.Forwarded ((st.flow_table.set st.flow_count
    { active := 1, src_addr := b4 * 256 + b5, dst_addr := b2 * 256 + b3,
      action := act, next_hop := ((p8 <<< 8) ||| p9) % U16,
      packet_count := 0 }).getD st.flow_count zeroRule).next_hop =
    Decision.Forwarded (p8 * 256 + p9)
  rw [getD_set_self _ _ _ _ (by rw [hwf]; omega)]
  show Decision.Forwarded (((p8 <<< 8) ||| p9) % U16) = _
  rw [byte_pair_mod p8 p9 hp8 hp9]

/-- C6 witness: installing `9 → 5` with next hop `0x0102` and sending the
matching `DATA` packet yields `Forwarded(258)`. -/
theorem flow_rule_then_data_spec_witness :
    flow_table_lookup initState (0 * 256 + 9) (0 * 256 + 5) = none ∧
    (process_wise_packet
        (7 :: WISE_TYPE_DATA :: 0 :: 5 :: 0 :: 9 :: 0 :: [])
        (process_wise_packet
          (14 :: WISE_TYPE_FLOW_RULE :: 0 :: 5 :: 0 :: 9 :: 3 :: 1 ::
            1 :: 2 :: 0 :: 0 :: 0 :: 0 :: []) initState).2).1 =
      Decision.Forwarded (1 * 256 + 2) :=
  ⟨by decide,
   flow_rule_then_data_spec initState 14 0 5 0 9 3 1 1 2 0 0 0 0 7 0 [] []
     (by decide) (by decide) (by decide) (by decide) (by decide) (by decide)
     (by decide) (by decide) (by decide)⟩

/-- C7: called in the sink/controller role, `send_report_to_controller`
returns no packet and leaves the state (in particular `packets_sent`)
unchanged; in any other role it increments `packets_sent` by one, and the
emitted report is 20 bytes whose bytes 2-3 are the node address bytes and
whose bytes 7-10 are the pre-call `packets_sent` as a 32-bit big-endian
integer. -/
theorem build_report_spec (b6 b7 : Nat) (buf : List Nat) (st : AgentState)
    (hb6 : b6 < 256) (hb7 : b7 < 256) (hbuf : buf.length = 32)
    (hsent : st.stats.packets_sent < U32) :
    send_report_to_controller true b6 b7 buf st = (none, st) ∧
    (send_report_to_controller false b6 b7 buf st).2 =
      { st with stats := { st.stats with
          packets_sent := (st.stats.packets_sent + 1) % U32 } } ∧
    (send_report_to_controller false b6 b7 buf st).1 ≠ none ∧
    ((send_report_to_controller false b6 b7 buf st).1.getD []).length = 20 ∧
    ((send_report_to_controller false b6 b7 buf st).1.getD []).getD 2 0 =
      b6 ∧
    ((send_report_to_controller false b6 b7 buf st).1.getD []).getD 3 0 =
      b7 ∧
    ((send_report_to_controller false b6 b7 buf st).1.getD []).getD 7 0 *
        16777216 +
      ((send_report_to_controller false b6 b7 buf st).1.getD []).getD 8 0 *
        65536 +
      ((send_report_to_controller false b6 b7 buf st).1.getD []).getD 9 0 *
        256 +
      ((send_report_to_controller false b6 b7 buf st).1.getD []).getD 10 0 =
      st.stats.packets_sent := by
  have hnode : ((b6 <<< 8) ||| b7) % U16 = b6 * 256 + b7 :=
    byte_pair_mod b6 b7 hb6 hb7
  obtain ⟨r1, r2, r3, r4, r5, r6, r7⟩ := report_chain_getD buf
    (((((b6 <<< 8) ||| b7) % U16) >>> 8) &&& 255)
    ((((b6 <<< 8) ||| b7) % U16) &&& 255)
    ((st.stats.packets_sent >>> 24) &&& 255)
    ((st.stats.packets_sent >>> 16) &&& 255)
    ((st.stats.packets_sent >>> 8) &&& 255)
    (st.stats.packets_sent &&& 255) hbuf
  refine ⟨rfl, send_report_false_state b6 b7 buf st, ?_, ?_, ?_, ?_, ?_⟩
  · rw [send_report_false_rep]
    simp
  · rw [send_report_false_rep]
    simpa using r1
  · rw [send_report_false_rep]
    simp only [Option.getD_some]
    rw [r2, hnode, byte_hi8]
    omega
  · rw [send_report_false_rep]
    simp only [Option.getD_some]
    rw [r3, hnode, and_255_eq_mod]
    omega
  · rw [send_report_false_rep]
    simp only [Option.getD_some]
    rw [r4, r5, r6, r7, byte_hi24, byte_hi16, byte_hi8, and_255_eq_mod]
    unfold U32 at hsent
    omega

/-- C7 witness: with address bytes `(0, 7)` and `packets_sent = 0`, the
non-root call emits a 20-byte report with byte 3 equal to 7, and the root
call is a no-op. -/
theorem build_report_spec_witness :
    send_report_to_controller true 0 7 (List.replicate 32 170) initState =
      (none, initState) ∧
    ((send_report_to_controller false 0 7 (List.replicate 32 170)
      initState).1.getD []).getD 3 0 = 7 :=
  ⟨(build_report_spec 0 7 (List.replicate 32 170) initState (by decide)
      (by decide) (by decide) (by decide)).1,
   (build_report_spec 0 7 (List.replicate 32 170) initState (by decide)
      (by decide) (by decide) (by decide)).2.2.2.2.2.1⟩

/-- C8 (code bug): with the role query answering false and the
uninitialized 32-byte stack buffer holding `0xAA = 170` everywhere, the
emitted report carries `170`, not `0`, at the reserved offsets 4-6 and
11-19 — `send_report_to_controller` never clears `buffer[32]`, so the
bytes the spec calls reserved/zero are whatever the stack held. -/
theorem build_report_reserved_bytes_bug :
    ((send_report_to_controller false 0 1 (List.replicate 32 170)
        initState).1.getD []).getD 4 0 = 170 ∧
    ((send_report_to_controller false 0 1 (List.replicate 32 170)
        initState).1.getD []).getD 5 0 = 170 ∧
    ((send_report_to_controller false 0 1 (List.replicate 32 170)
        initState).1.getD []).getD 6 0 = 170 ∧
    ((send_report_to_controller false 0 1 (List.replicate 32 170)
        initState).1.getD []).getD 11 0 = 170 ∧
    ((send_report_to_controller false 0 1 (List.replicate 32 170)
        initState).1.getD []).getD 19 0 = 170 := by
  decide
